import Mathlib

/-!
Verification of the tool-dispatch decision loop of the Map Assistant
(`agent_app.py`, with tool adapters in `map_servers/`).

The embedding models the Python program shallowly:

* `Json` is the type of values produced by `json.loads` / consumed by
  `json.dumps` (Python `None`/`bool`/`int`/`str`/`list`/`dict`).  Python
  dictionaries obtained from `json.loads` have unique string keys, so an
  association list with unique keys represents them; lookups are
  first-match.
* Python dynamic-typing failures (`TypeError`, `AttributeError`, ...)
  are modelled by `Except PyExn`; an `Except.error` that no enclosing
  `try` catches is an uncaught exception escaping the function.
* The external world (the Hugging Face chat endpoint `_hf_chat`, the
  `json.loads` parser, and the network-facing bodies of the tool
  functions) is a parameter `Env`: `chat` returns `none` when the
  adapter itself raises, `jsonLoads` returns `none` when `json.loads`
  raises `JSONDecodeError`, and `toolRun` gives the behaviour of a tool
  body once its keyword arguments have bound successfully.
* Module-level state (the `TOOL_FUNCTIONS` registry) is threaded through
  `handleUserMessage` explicitly as an `AgentState`; the Python code
  never assigns to it, so every branch returns it unchanged.
-/

namespace AgentApp

/-- JSON-compatible Python values (`None`, `bool`, `int`, `str`, `list`, `dict`). -/
inductive Json where
  | null
  | bool (b : Bool)
  | num (n : Int)
  | str (s : String)
  | arr (items : List Json)
  | obj (fields : List (String × Json))

/-- Python exceptions that the dispatch code can raise or catch. -/
inductive PyExn where
  | typeError (msg : String)
  | attributeError (msg : String)
  | keyError (msg : String)
  | modelCallError

/-- One chat message, `{"role": ..., "content": ...}` as built by the agent. -/
structure ChatMsg where
  role : String
  content : String

/-- Outcome of running a tool body after its keyword arguments bound:
normal return, or an exception (`TypeError` is distinguished because
`handle_user_message` has a dedicated `except TypeError` clause). -/
inductive ExecResult where
  | ok (result : Json)
  | exnTypeError (msg : String)
  | exnOther (msg : String)

/-- The external world of the agent: the language-model adapter, the JSON
parser and the tool bodies.  `chat msgs maxTokens = none` models `_hf_chat`
raising; `jsonLoads s = none` models `json.loads` raising `JSONDecodeError`;
`typeErrText t a` is the text `str(e)` of the `TypeError` CPython raises when
the keyword arguments `a` fail to bind to tool `t`'s parameters. -/
structure Env where
  chat : List ChatMsg → Nat → Option String
  jsonLoads : String → Option Json
  toolRun : String → Json → ExecResult
  typeErrText : String → Json → String

/-- One formal parameter of a tool implementation function:
its name and whether it has a default value. -/
structure Param where
  name : String
  hasDefault : Bool

/-- Module-level mutable state visible to `handle_user_message`: the
`TOOL_FUNCTIONS` registry, mapping tool names to the keyword-parameter
signatures of their callables. -/
structure AgentState where
  toolFunctions : List (String × List Param)

/-- What one call of `handle_user_message` did: the value it returned (or
the exception that escaped it), which tool bodies were entered and with
which keyword-argument dictionaries, and how many explanation-stage model
calls were made. -/
inductive Outcome where
  | returns (v : Json)
  | raises (e : PyExn)

structure TurnResult where
  outcome : Outcome
  toolCalls : List (String × Json)
  explainCalls : Nat

/-! ### Python string primitives

`str.strip()`, `str.lower()` and substring search, implemented over the
character list so that they compute by `rfl`/`decide`. -/

def isSpaceChar (c : Char) : Bool :=
  c == ' ' || c == '\t' || c == '\n' || c == '\r' || c == '\x0b' || c == '\x0c'

/-- Python `str.strip()` (whitespace from both ends). -/
def pyStrip (s : String) : String :=
  String.mk (((s.data.dropWhile isSpaceChar).reverse.dropWhile isSpaceChar).reverse)

def pyLowerChar (c : Char) : Char :=
  if 'A' ≤ c && c ≤ 'Z' then Char.ofNat (c.toNat + 32) else c

/-- Python `str.lower()` (ASCII; the REPL only compares against "quit"/"exit"). -/
def pyLower (s : String) : String :=
  String.mk (s.data.map pyLowerChar)

def startsWithSeq (pat s : List Char) : Bool :=
  match pat, s with
  | [], _ => true
  | _ :: _, [] => false
  | p :: ps, c :: cs => p == c && startsWithSeq ps cs

def containsSeq (pat : List Char) : List Char → Bool
  | [] => startsWithSeq pat []
  | c :: cs => startsWithSeq pat (c :: cs) || containsSeq pat cs

/-- Python `pat in s` for strings: substring containment. -/
def strContainsSub (s pat : String) : Bool :=
  containsSeq pat.data s.data

/-! ### Python value semantics used by `handle_user_message` -/

mutual

/-- Python `repr` of a JSON-shaped value (what `str()` shows for the
elements of containers and for dictionaries in f-strings). -/
def pyRepr : Json → String
  | .null => "None"
  | .bool b => if b then "True" else "False"
  | .num n => toString n
  | .str s => "\x27" ++ s ++ "\x27"
  | .arr xs => "[" ++ pyReprItems xs ++ "]"
  | .obj kvs => "\x7b" ++ pyReprFields kvs ++ "\x7d"

def pyReprItems : List Json → String
  | [] => ""
  | [x] => pyRepr x
  | x :: y :: rest => pyRepr x ++ ", " ++ pyReprItems (y :: rest)

def pyReprFields : List (String × Json) → String
  | [] => ""
  | [(k, v)] => "\x27" ++ k ++ "\x27: " ++ pyRepr v
  | (k, v) :: kv :: rest =>
      "\x27" ++ k ++ "\x27: " ++ pyRepr v ++ ", " ++ pyReprFields (kv :: rest)

end

/-- Python `str(v)`, as interpolated by an f-string: a `str` stays bare
(no quotes); every other value prints as its `repr`. -/
def pyStr : Json → String
  | .str s => s
  | v => pyRepr v

/-- Python `k in v` for a string `k`: key membership for `dict`, element
membership for `list`, substring test for `str`; `int`/`float`/`bool`/`None`
raise `TypeError: argument of type ... is not iterable`. -/
def pyContainsStr (v : Json) (k : String) : Except PyExn Bool :=
  match v with
  | .obj kvs => .ok (kvs.any (fun kv => kv.1 == k))
  | .arr xs => .ok (xs.any (fun x => match x with | .str s => s == k | _ => false))
  | .str s => .ok (strContainsSub s k)
  | _ => .error (.typeError "argument of type given value is not iterable")

/-- Python `v.get(k, dflt)`: only `dict` has `.get`; every other value
raises `AttributeError`. -/
def pyMapGet (v : Json) (k : String) (dflt : Json) : Except PyExn Json :=
  match v with
  | .obj kvs => .ok ((kvs.lookup k).getD dflt)
  | _ => .error (.attributeError "object has no attribute get")

/-- Python `v[k]` for a string key `k`: `dict` lookup (`KeyError` when
absent); `list` and `str` raise `TypeError` on a string index; the rest are
not subscriptable. -/
def pySubscriptStr (v : Json) (k : String) : Except PyExn Json :=
  match v with
  | .obj kvs =>
      match kvs.lookup k with
      | some x => .ok x
      | none => .error (.keyError k)
  | .arr _ => .error (.typeError "list indices must be integers or slices, not str")
  | .str _ => .error (.typeError "string indices must be integers")
  | _ => .error (.typeError "value is not subscriptable")

/-- Python truthiness of a JSON-shaped value (used by `... or {}`). -/
def pyTruthy : Json → Bool
  | .null => false
  | .bool b => b
  | .num n => n != 0
  | .str s => s != ""
  | .arr xs => !xs.isEmpty
  | .obj kvs => !kvs.isEmpty

/-- Python `v not in TOOL_FUNCTIONS` for a string-keyed dict: a string is
looked up among the keys; other hashable values are simply absent; `list`
and `dict` values are unhashable and raise `TypeError`. -/
def pyInStrKeys (v : Json) (keys : List String) : Except PyExn Bool :=
  match v with
  | .str s => .ok (keys.any (fun k => k == s))
  | .arr _ => .error (.typeError "unhashable type: list")
  | .obj _ => .error (.typeError "unhashable type: dict")
  | _ => .ok false

/-- CPython keyword-argument binding for a call `f(**kwargs)` where `f`
has only positional-or-keyword parameters and no `**kwargs` catch-all:
the call binds iff every supplied name is a declared parameter and every
parameter without a default is supplied. -/
def bindsOk (sig : List Param) (kwargs : List (String × Json)) : Bool :=
  kwargs.all (fun kv => sig.any (fun p => p.name == kv.1)) &&
  sig.all (fun p => p.hasDefault || kwargs.any (fun kv => kv.1 == p.name))

/-! ### json.dumps (indent=2), needed only to build the prompt strings -/

def jsonEscapeChar (c : Char) : String :=
  if c == '"' then "\\\""
  else if c == '\\' then "\\\\"
  else if c == '\n' then "\\n"
  else if c == '\t' then "\\t"
  else if c == '\r' then "\\r"
  else String.mk [c]

def jsonEscape (s : String) : String :=
  String.join (s.data.map jsonEscapeChar)

def spaces (n : Nat) : String :=
  String.mk (List.replicate n ' ')

mutual

/-- Python `json.dumps(v, indent=2)` at a given current indentation level. -/
def dumpsInd (ind : Nat) : Json → String
  | .null => "null"
  | .bool b => if b then "true" else "false"
  | .num n => toString n
  | .str s => "\"" ++ jsonEscape s ++ "\""
  | .arr [] => "[]"
  | .arr (x :: xs) =>
      "[\n" ++ dumpsItems (ind + 2) (x :: xs) ++ "\n" ++ spaces ind ++ "]"
  | .obj [] => "\x7b\x7d"
  | .obj (kv :: kvs) =>
      "\x7b\n" ++ dumpsFields (ind + 2) (kv :: kvs) ++ "\n" ++ spaces ind ++ "\x7d"

def dumpsItems (ind : Nat) : List Json → String
  | [] => ""
  | [x] => spaces ind ++ dumpsInd ind x
  | x :: y :: rest =>
      spaces ind ++ dumpsInd ind x ++ ",\n" ++ dumpsItems ind (y :: rest)

def dumpsFields (ind : Nat) : List (String × Json) → String
  | [] => ""
  | [(k, v)] => spaces ind ++ "\"" ++ jsonEscape k ++ "\": " ++ dumpsInd ind v
  | (k, v) :: kv :: rest =>
      spaces ind ++ "\"" ++ jsonEscape k ++ "\": " ++ dumpsInd ind v ++ ",\n"
        ++ dumpsFields ind (kv :: rest)

end

/-- Python `json.dumps(v, indent=2)`. -/
def jsonDumps2 (v : Json) : String :=
  dumpsInd 0 v

/-! ### Tool catalog (`_tool_schema`, `TOOL_FUNCTIONS` in agent_app.py) -/

/-- One entry of `_tool_schema()`: a description plus the per-argument
help strings, in insertion order. -/
structure ToolDesc where
  description : String
  args : List (String × String)

/-- Transcription of `_tool_schema()` (agent_app.py lines 77-135). -/
def toolSchema : List (String × ToolDesc) :=
  [ ("osm_geocode",
     ⟨"Forward geocode a free-text place or address using OpenStreetMap Nominatim.",
      [ ("query", "string (required) - address or place name, e.g. \x27Berlin, Germany\x27."),
        ("limit", "integer (optional, default=5) - max number of results (1-10).") ]⟩),
    ("osm_reverse_geocode",
     ⟨"Reverse geocode coordinates to an address using OpenStreetMap Nominatim.",
      [ ("lat", "float (required) - latitude in decimal degrees."),
        ("lon", "float (required) - longitude in decimal degrees."),
        ("zoom", "integer (optional, default=18) - detail level (3-18).") ]⟩),
    ("osm_search_poi",
     ⟨"Search points-of-interest (POI) around a coordinate using Overpass API.",
      [ ("lat", "float (required) - center latitude."),
        ("lon", "float (required) - center longitude."),
        ("radius_m", "integer (optional, default=500) - radius in meters (50-5000)."),
        ("key", "string (optional, default=\x27amenity\x27) - OSM tag key."),
        ("value", "string (optional, default=\x27restaurant\x27) - OSM tag value."),
        ("limit", "integer (optional, default=20) - max results (1-50).") ]⟩),
    ("osrm_route_driving",
     ⟨"Get a driving route between two coordinates using OSRM.",
      [ ("start_lat", "float (required)"),
        ("start_lon", "float (required)"),
        ("end_lat", "float (required)"),
        ("end_lon", "float (required)") ]⟩),
    ("osrm_route_cycling",
     ⟨"Get a cycling route between two coordinates using OSRM.",
      [ ("start_lat", "float (required)"),
        ("start_lon", "float (required)"),
        ("end_lat", "float (required)"),
        ("end_lon", "float (required)") ]⟩),
    ("osrm_nearest_road",
     ⟨"Snap a coordinate to the nearest road using OSRM.",
      [ ("lat", "float (required)"),
        ("lon", "float (required)"),
        ("profile", "string (optional, default=\x27driving\x27) - OSRM profile (driving, bike, foot).") ]⟩) ]

/-- Keyword-parameter signature of `osrm_route_driving_impl`
(map_servers/osrm_server.py lines 59-64): four required floats. -/
def sig_osrm_route_driving : List Param :=
  [⟨"start_lat", false⟩, ⟨"start_lon", false⟩, ⟨"end_lat", false⟩, ⟨"end_lon", false⟩]

/-- Keyword-parameter signature of `osrm_route_cycling_impl`
(map_servers/osrm_server.py lines 87-92): four required floats. -/
def sig_osrm_route_cycling : List Param :=
  [⟨"start_lat", false⟩, ⟨"start_lon", false⟩, ⟨"end_lat", false⟩, ⟨"end_lon", false⟩]

/-- Keyword-parameter signature of `osrm_nearest_road_impl`
(map_servers/osrm_server.py line 112): `lat`, `lon` required,
`profile` defaulted. -/
def sig_osrm_nearest_road : List Param :=
  [⟨"lat", false⟩, ⟨"lon", false⟩, ⟨"profile", true⟩]

/-- Modelled from the spec: `osm_geocode_impl` lives in
`map_servers/osm_server.py`, which is not part of the sources; its
keyword signature is taken from the `_tool_schema()` entry and the tests
(`query` required, `limit` defaulted). -/
def sig_osm_geocode : List Param :=
  [⟨"query", false⟩, ⟨"limit", true⟩]

/-- Modelled from the spec: `osm_reverse_geocode_impl` is in the missing
`map_servers/osm_server.py`; signature from `_tool_schema()` and the tests
(`lat`, `lon` required, `zoom` defaulted). -/
def sig_osm_reverse_geocode : List Param :=
  [⟨"lat", false⟩, ⟨"lon", false⟩, ⟨"zoom", true⟩]

/-- Modelled from the spec: `osm_search_poi_impl` is in the missing
`map_servers/osm_server.py`; signature from `_tool_schema()`
(`lat`, `lon` required, the rest defaulted). -/
def sig_osm_search_poi : List Param :=
  [⟨"lat", false⟩, ⟨"lon", false⟩, ⟨"radius_m", true⟩, ⟨"key", true⟩,
   ⟨"value", true⟩, ⟨"limit", true⟩]

/-- The `TOOL_FUNCTIONS` registry (agent_app.py lines 138-145), with each
callable abstracted to its keyword-parameter signature. -/
def TOOL_FUNCTIONS : List (String × List Param) :=
  [ ("osm_geocode", sig_osm_geocode),
    ("osm_reverse_geocode", sig_osm_reverse_geocode),
    ("osm_search_poi", sig_osm_search_poi),
    ("osrm_route_driving", sig_osrm_route_driving),
    ("osrm_route_cycling", sig_osrm_route_cycling),
    ("osrm_nearest_road", sig_osrm_nearest_road) ]

/-- The module state after agent_app.py finishes importing. -/
def agentInitState : AgentState :=
  ⟨TOOL_FUNCTIONS⟩

/-! ### Prompt construction (`build_system_prompt`, explanation prompt) -/

def joinSep (sep : String) : List String → String
  | [] => ""
  | [x] => x
  | x :: y :: rest => x ++ sep ++ joinSep sep (y :: rest)

/-- One `tools_text_parts` entry of `build_system_prompt`
(agent_app.py lines 155-160). -/
def toolsTextPart (name : String) (spec : ToolDesc) : String :=
  "- " ++ name ++ ":\n" ++
  "  description: " ++ spec.description ++ "\n" ++
  "  args: " ++ jsonDumps2 (Json.obj (spec.args.map (fun kv => (kv.1, Json.str kv.2))))

/-- `build_system_prompt()` (agent_app.py lines 152-177). -/
def buildSystemPrompt : String :=
  let toolsText := joinSep "\n" (toolSchema.map (fun t => toolsTextPart t.1 t.2))
  "You are a geospatial assistant that can call a set of tools (map servers).\n" ++
  "Tools available:\n" ++
  toolsText ++ "\n\n" ++
  "You MUST decide if you need to call a tool.\n" ++
  "If you need a tool, respond ONLY with a JSON object of the form:\n" ++
  "\x7b\n" ++
  "  \"tool\": \"<tool_name>\",\n" ++
  "  \"args\": \x7b ... \x7d\n" ++
  "\x7d\n" ++
  "where <tool_name> is one of the tools above, and args contains only simple JSON types.\n" ++
  "If you can answer directly without tools (e.g., conceptual explanation), respond ONLY with:\n" ++
  "\x7b \"answer\": \"<your natural language answer>\" \x7d\n" ++
  "Do not add any extra text outside the JSON. The JSON must be the entire response."

/-- The `[system, user]` message list sent by `ask_llm_for_tool_or_answer`
(agent_app.py lines 190-193). -/
def decisionMessages (userMessage : String) : List ChatMsg :=
  [⟨"system", buildSystemPrompt⟩, ⟨"user", userMessage⟩]

/-- `_tool_schema().get(tool_name, \x7b\x7d).get(\x27description\x27, \x27\x27)`
as used by the explanation prompt (agent_app.py lines 215, 220). -/
def schemaDescription (toolName : String) : String :=
  match toolSchema.lookup toolName with
  | some d => d.description
  | none => ""

/-- The explanation prompt (agent_app.py lines 216-226). -/
def explanationPrompt (userMessage toolName : String) (args result : Json) : String :=
  "You are a geospatial assistant. A tool has been called on behalf of the user.\n\n" ++
  "User message:\n" ++ userMessage ++ "\n\n" ++
  "Tool used: " ++ toolName ++ "\n" ++
  "Tool description: " ++ schemaDescription toolName ++ "\n" ++
  "Arguments: " ++ jsonDumps2 args ++ "\n\n" ++
  "Raw tool result (JSON):\n" ++ jsonDumps2 result ++ "\n\n" ++
  "Now explain the result to the user in clear natural language. " ++
  "Summarize key distances, durations, coordinates, and any useful POI details. " ++
  "Do not show the raw JSON, just a human-readable explanation."

/-- The message list sent by `ask_llm_to_explain_result`
(agent_app.py lines 228-231). -/
def explanationMessages (userMessage toolName : String) (args result : Json) : List ChatMsg :=
  [⟨"system", "You are a helpful geospatial assistant."⟩,
   ⟨"user", explanationPrompt userMessage toolName args result⟩]

/-! ### The two model stages -/

/-- `ask_llm_for_tool_or_answer` (agent_app.py lines 180-203): call the
model, strip, parse as JSON; on `JSONDecodeError` fall back to
`\x7b"answer": text\x7d` built from the stripped text. -/
def askLlmForToolOrAnswer (env : Env) (userMessage : String) : Except PyExn Json :=
  match env.chat (decisionMessages userMessage) 512 with
  | none => .error .modelCallError
  | some raw =>
      let text := pyStrip raw
      match env.jsonLoads text with
      | some d => .ok d
      | none => .ok (.obj [("answer", .str text)])

/-- `ask_llm_to_explain_result` (agent_app.py lines 206-233): build the
explanation prompt, call the model, return the stripped reply. -/
def askLlmToExplainResult (env : Env) (userMessage toolName : String)
    (args result : Json) : Except PyExn String :=
  match env.chat (explanationMessages userMessage toolName args result) 512 with
  | none => .error .modelCallError
  | some t => .ok (pyStrip t)

/-! ### Error strings of `handle_user_message` -/

/-- The f-string of agent_app.py line 253. -/
def unknownToolMsg (toolNameVal : Json) : String :=
  "I tried to call an unknown tool \x27" ++ pyStr toolNameVal ++
  "\x27. Please refine your request."

/-- The f-string of agent_app.py line 260 (the `except TypeError` branch). -/
def invalidArgsMsg (toolName : String) (args : Json) (detail : String) : String :=
  "There was an error calling tool \x27" ++ toolName ++ "\x27 with arguments " ++
  pyStr args ++ ": " ++ detail

/-- The f-string of agent_app.py line 262 (the `except Exception` branch). -/
def toolFailedMsg (toolName : String) (detail : String) : String :=
  "Tool \x27" ++ toolName ++ "\x27 failed with an exception: " ++ detail

/-! ### handle_user_message -/

/-- Lines 255-264 of agent_app.py: `tool_fn = TOOL_FUNCTIONS[tool_name]`,
then `try: result = tool_fn(**args)` with the two `except` clauses, then
the explanation stage.  `tool_fn(**args)` raises `TypeError` before the
body runs when `args` is not a mapping or its keywords fail to bind to the
signature; only when binding succeeds does the body (which performs the
network request) execute. -/
def invokeToolAndExplain (env : Env) (st : AgentState) (userMessage toolName : String)
    (sig : List Param) (args : Json) : TurnResult × AgentState :=
  match args with
  | .obj kwargs =>
      if bindsOk sig kwargs then
        match env.toolRun toolName (.obj kwargs) with
        | .ok result =>
            match askLlmToExplainResult env userMessage toolName (.obj kwargs) result with
            | .ok s => (⟨.returns (.str s), [(toolName, .obj kwargs)], 1⟩, st)
            | .error e => (⟨.raises e, [(toolName, .obj kwargs)], 1⟩, st)
        | .exnTypeError m =>
            (⟨.returns (.str (invalidArgsMsg toolName (.obj kwargs) m)),
              [(toolName, .obj kwargs)], 0⟩, st)
        | .exnOther m =>
            (⟨.returns (.str (toolFailedMsg toolName m)),
              [(toolName, .obj kwargs)], 0⟩, st)
      else
        (⟨.returns (.str (invalidArgsMsg toolName (.obj kwargs)
            (env.typeErrText toolName (.obj kwargs)))), [], 0⟩, st)
  | other =>
      (⟨.returns (.str (invalidArgsMsg toolName other
          (env.typeErrText toolName other))), [], 0⟩, st)

/-- Lines 249-264 of agent_app.py (the tool path):
`tool_name = decision.get("tool")`, `args = decision.get("args", \x7b\x7d) or \x7b\x7d`,
the catalog membership test, and the invocation.  For the membership test
`tool_name not in TOOL_FUNCTIONS`: a string is looked up among the keys,
unhashable values (`list`, `dict`) raise `TypeError`, and every other value
is simply not a key, producing the unknown-tool reply. -/
def handleToolPath (env : Env) (st : AgentState) (userMessage : String)
    (decision : Json) : TurnResult × AgentState :=
  match pyMapGet decision "tool" .null with
  | .error e => (⟨.raises e, [], 0⟩, st)
  | .ok toolNameVal =>
      match pyMapGet decision "args" (.obj []) with
      | .error e => (⟨.raises e, [], 0⟩, st)
      | .ok rawArgs =>
          let args := if pyTruthy rawArgs then rawArgs else .obj []
          match toolNameVal with
          | .arr _ => (⟨.raises (.typeError "unhashable type: list"), [], 0⟩, st)
          | .obj _ => (⟨.raises (.typeError "unhashable type: dict"), [], 0⟩, st)
          | .str name =>
              match st.toolFunctions.lookup name with
              | some sig => invokeToolAndExplain env st userMessage name sig args
              | none => (⟨.returns (.str (unknownToolMsg toolNameVal)), [], 0⟩, st)
          | _ => (⟨.returns (.str (unknownToolMsg toolNameVal)), [], 0⟩, st)

/-- `handle_user_message` (agent_app.py lines 236-264).  The translated
branch condition is line 245, `if "answer" in decision and "tool" not in
decision`, with Python short-circuit evaluation and Python `in` semantics
(which raise `TypeError` on non-iterable decisions); the direct-answer
return is `decision["answer"]` (line 246).  No branch assigns any module
global, so the state comes back unchanged. -/
def handleUserMessage (env : Env) (st : AgentState) (userMessage : String) :
    TurnResult × AgentState :=
  match askLlmForToolOrAnswer env userMessage with
  | .error e => (⟨.raises e, [], 0⟩, st)
  | .ok decision =>
      match pyContainsStr decision "answer" with
      | .error e => (⟨.raises e, [], 0⟩, st)
      | .ok hasAnswer =>
          if hasAnswer then
            match pyContainsStr decision "tool" with
            | .error e => (⟨.raises e, [], 0⟩, st)
            | .ok hasTool =>
                if hasTool then handleToolPath env st userMessage decision
                else
                  match pySubscriptStr decision "answer" with
                  | .error e => (⟨.raises e, [], 0⟩, st)
                  | .ok v => (⟨.returns v, [], 0⟩, st)
          else handleToolPath env st userMessage decision

/-! ### The REPL (`main`, agent_app.py lines 271-292) -/

/-- How a run of `main()`'s while-loop ends.  `crashed` records an
exception escaping `handle_user_message` at line 289: that call site is
outside the `try` (which guards only `input()`), so the exception
propagates out of the loop and out of `main`. -/
inductive ReplExit where
  | exitedEof
  | exitedQuit
  | crashed (e : PyExn)
  | ranOut

/-- `main()`'s loop over a stream of `input()` results (`none` models
`EOFError`/`KeyboardInterrupt`).  Returns the list of assistant answers
printed and how the loop ended. -/
def replRun (env : Env) : AgentState → List (Option String) → List String × ReplExit
  | _, [] => ([], .ranOut)
  | _, none :: _ => ([], .exitedEof)
  | st, some s :: rest =>
      let userInput := pyStrip s
      if pyLower userInput == "quit" || pyLower userInput == "exit" then
        ([], .exitedQuit)
      else if userInput == "" then
        replRun env st rest
      else
        match handleUserMessage env st userInput with
        | (⟨.returns v, _, _⟩, st2) =>
            let next := replRun env st2 rest
            (pyStr v :: next.1, next.2)
        | (⟨.raises e, _, _⟩, _) => ([], .crashed e)

end AgentApp

namespace AgentApp

/-! ### Helper lemmas -/

/-- When an association list has no binding for `k`, no key equals `k`. -/
theorem any_key_false_of_lookup_none {kvs : List (String × Json)} {k : String}
    (h : kvs.lookup k = none) : kvs.any (fun kv => kv.1 == k) = false := by
  induction kvs with
  | nil => rfl
  | cons kv rest ih =>
      rw [List.lookup] at h
      by_cases hk : k = kv.1
      · subst hk
        simp only [beq_self_eq_true] at h
        cases h
      · have h1 : (k == kv.1) = false := beq_eq_false_iff_ne.mpr hk
        simp only [h1] at h
        have h2 : (kv.1 == k) = false := beq_eq_false_iff_ne.mpr (fun hc => hk hc.symm)
        rw [List.any_cons, h2, ih h]
        rfl

/-- The `args = decision.get("args", {}) or {}` normalization is the
identity on dictionaries. -/
theorem ite_truthy_obj (A : List (String × Json)) :
    (if pyTruthy (Json.obj A) then Json.obj A else Json.obj []) = Json.obj A := by
  cases A <;> rfl

/-- No branch of `handle_user_message` assigns any module-level state. -/
theorem handleUserMessage_state (env : Env) (st : AgentState) (m : String) :
    (handleUserMessage env st m).2 = st := by
  unfold handleUserMessage handleToolPath invokeToolAndExplain
  repeat' split
  all_goals try rfl
  all_goals dsimp only
  all_goals repeat' split
  all_goals rfl

end AgentApp

namespace AgentApp

/-! ### Claim C2 -/

/-- C2: for every user message whose decision-stage model output is a
well-formed JSON object of the shape `{"answer": "..."}` (and no `"tool"`
key), `handle_user_message` returns exactly that answer text, unmodified,
no tool is invoked, and no explanation call is made. -/
theorem directAnswer_returned_verbatim (env : Env) (st : AgentState) (m raw a : String)
    (hchat : env.chat (decisionMessages m) 512 = some raw)
    (hparse : env.jsonLoads (pyStrip raw) = some (.obj [("answer", .str a)])) :
    handleUserMessage env st m =
      (⟨.returns (.str a), [], 0⟩, st) := by
  have hd : askLlmForToolOrAnswer env m = .ok (.obj [("answer", .str a)]) := by
    simp only [askLlmForToolOrAnswer, hchat, hparse]
  unfold handleUserMessage
  rw [hd]
  rfl

/-- Concrete run of C2: model decides `{"answer": "hi"}`, the user gets
exactly "hi". -/
def envC2w : Env :=
  ⟨fun _ _ => some "RAW2",
   fun s => if s == "RAW2" then some (.obj [("answer", .str "hi")]) else none,
   fun _ _ => .exnOther "boom", fun _ _ => "TE"⟩

/-- Claim C2 witness: model decides `{"answer": "hi"}`; the user gets exactly "hi". -/
theorem directAnswer_returned_verbatim_witness :
    handleUserMessage envC2w agentInitState "m" =
      (⟨.returns (.str "hi"), [], 0⟩, agentInitState) :=
  directAnswer_returned_verbatim envC2w agentInitState "m" "RAW2" "hi" rfl rfl

/-! ### Claim C3 -/

/-- C3 counterexample: when the decision-stage model output is not valid
JSON but carries surrounding whitespace, the fallback `DirectAnswer` holds
the `.strip()`-ped text, not the raw model output verbatim; the claim as
stated is false. -/
def envC3c : Env :=
  ⟨fun _ _ => some "  plain prose  ", fun _ => none,
   fun _ _ => .exnOther "boom", fun _ _ => "TE"⟩

/-- Claim C3 counterexample: a non-JSON model reply with surrounding whitespace
is echoed stripped, not verbatim. -/
theorem parseFailure_not_verbatim_counterexample :
    askLlmForToolOrAnswer envC3c "m" = .ok (.obj [("answer", .str "plain prose")])
    ∧ (handleUserMessage envC3c agentInitState "m").1.outcome
        = .returns (.str "plain prose")
    ∧ "plain prose" ≠ "  plain prose  " :=
  ⟨rfl, rfl, by decide⟩

/-- C3 amended: for every decision-stage model output that is not valid
JSON, the decision parser never raises and always produces a
`DirectAnswer` whose text is the model output with surrounding whitespace
stripped (`.strip()` is applied before parsing), so `handle_user_message`
returns exactly that stripped text; no tool is invoked and no explanation
call is made. -/
theorem parseFailure_yields_stripped_answer (env : Env) (st : AgentState) (m raw : String)
    (hchat : env.chat (decisionMessages m) 512 = some raw)
    (hparse : env.jsonLoads (pyStrip raw) = none) :
    askLlmForToolOrAnswer env m = .ok (.obj [("answer", .str (pyStrip raw))])
    ∧ handleUserMessage env st m =
        (⟨.returns (.str (pyStrip raw)), [], 0⟩, st) := by
  have hd : askLlmForToolOrAnswer env m = .ok (.obj [("answer", .str (pyStrip raw))]) := by
    simp only [askLlmForToolOrAnswer, hchat, hparse]
  refine ⟨hd, ?_⟩
  unfold handleUserMessage
  rw [hd]
  rfl

/-- Claim C3 witness: concrete non-JSON reply "  plain prose  " is returned as
"plain prose" with no tool and no explanation call. -/
theorem parseFailure_yields_stripped_answer_witness :
    askLlmForToolOrAnswer envC3c "mm" = .ok (.obj [("answer", .str "plain prose")])
    ∧ handleUserMessage envC3c agentInitState "mm" =
        (⟨.returns (.str "plain prose"), [], 0⟩, agentInitState) :=
  parseFailure_yields_stripped_answer envC3c agentInitState "mm" "  plain prose  " rfl rfl

/-! ### Claim C8 -/

/-- C8 counterexample: the explanation stage applies `.strip()` to the
model reply, so a reply with surrounding whitespace is not returned
verbatim; the claim as stated is false. -/
def envC8c : Env :=
  ⟨fun _ _ => some "  hello  ", fun _ => none,
   fun _ _ => .exnOther "boom", fun _ _ => "TE"⟩

/-- Claim C8 counterexample: the explanation stage strips the model reply
"  hello  " to "hello", so the reply is not returned verbatim. -/
theorem explanation_strip_counterexample :
    askLlmToExplainResult envC8c "m" "osm_geocode" (.obj []) .null = .ok "hello"
    ∧ "hello" ≠ "  hello  " :=
  ⟨rfl, by decide⟩

/-- C8 amended: `ask_llm_to_explain_result` returns the model reply with
surrounding whitespace stripped and applies no other post-processing, for
every model reply. -/
theorem explanation_returns_stripped (env : Env) (m T : String) (args result : Json)
    (t : String)
    (hchat : env.chat (explanationMessages m T args result) 512 = some t) :
    askLlmToExplainResult env m T args result = .ok (pyStrip t) := by
  simp only [askLlmToExplainResult, hchat]

/-- Claim C8 witness: concrete reply "  hello  " comes back as its stripped form. -/
theorem explanation_returns_stripped_witness :
    askLlmToExplainResult envC8c "m" "osm_geocode" (.obj []) .null = .ok (pyStrip "  hello  ") :=
  explanation_returns_stripped envC8c "m" "osm_geocode" (.obj []) .null "  hello  " rfl

/-! ### Claim C9 -/

/-- C9: with a fixed model response function and a fixed deterministic
tool stub (one `Env`), a second call of `handle_user_message` with the
same user message, run in the module state the first call left behind,
produces the identical `TurnResult` - same outcome, same tool
invocations, same number of explanation calls - so in particular the same
outcome class. -/
theorem handleUserMessage_idempotent (env : Env) (st : AgentState) (m : String) :
    (handleUserMessage env (handleUserMessage env st m).2 m).1
      = (handleUserMessage env st m).1 := by
  rw [handleUserMessage_state]

end AgentApp

namespace AgentApp

/-- When an association list binds `k`, some key equals `k`. -/
theorem any_key_true_of_lookup_some {kvs : List (String × Json)} {k : String} {v : Json}
    (h : kvs.lookup k = some v) : kvs.any (fun kv => kv.1 == k) = true := by
  induction kvs with
  | nil => cases h
  | cons kv rest ih =>
      rw [List.lookup] at h
      by_cases hk : k = kv.1
      · subst hk
        rw [List.any_cons, beq_self_eq_true]
        rfl
      · have h1 : (k == kv.1) = false := beq_eq_false_iff_ne.mpr hk
        simp only [h1] at h
        rw [List.any_cons, ih h, Bool.or_true]

/-! ### Claim C4 -/

/-- C4 counterexample: a decision-stage output that parses as the JSON
array `[]` (neither variant shape, not an object) makes
`handle_user_message` raise an uncaught `AttributeError` at
`decision.get("tool")`; the claim that no uncaught exception is raised is
false. -/
def envC4c : Env :=
  ⟨fun _ _ => some "[]",
   fun s => if s == "[]" then some (.arr []) else none,
   fun _ _ => .exnOther "boom", fun _ _ => "TE"⟩

/-- Claim C4 counterexample: decision text "[]" parses to a JSON array and
`handle_user_message` raises an uncaught `AttributeError`. -/
theorem nonObjectDecision_raises_counterexample :
    (handleUserMessage envC4c agentInitState "m").1.outcome
      = .raises (.attributeError "object has no attribute get") :=
  rfl

/-- C4 amended: when the decision-stage output parses as a JSON object
bearing neither an `"answer"` key nor a `"tool"` key,
`handle_user_message` does not raise: it falls through the tool path with
`tool_name = None` and returns the unknown-tool reply naming `None`.
(Parsed values that are not objects - arrays, numbers, strings, booleans,
null - instead raise an uncaught `TypeError` or `AttributeError`, as the
counterexample shows.) -/
theorem objectDecision_neither_key_no_raise (env : Env) (st : AgentState) (m raw : String)
    (kvs : List (String × Json))
    (hchat : env.chat (decisionMessages m) 512 = some raw)
    (hparse : env.jsonLoads (pyStrip raw) = some (.obj kvs))
    (hA : kvs.lookup "answer" = none)
    (hT : kvs.lookup "tool" = none) :
    handleUserMessage env st m =
      (⟨.returns (.str (unknownToolMsg .null)), [], 0⟩, st) := by
  have hd : askLlmForToolOrAnswer env m = .ok (.obj kvs) := by
    simp only [askLlmForToolOrAnswer, hchat, hparse]
  have hans : pyContainsStr (.obj kvs) "answer" = .ok false := by
    simp only [pyContainsStr, any_key_false_of_lookup_none hA]
  simp only [handleUserMessage, hd, hans]
  unfold handleToolPath
  simp only [pyMapGet, hT, Option.getD]
  rfl

/-- Concrete run of the amended C4: decision `{"foo": 1}` yields the
unknown-tool reply for `None` and no crash. -/
def envC4w : Env :=
  ⟨fun _ _ => some "RAW4",
   fun s => if s == "RAW4" then some (.obj [("foo", .num 1)]) else none,
   fun _ _ => .exnOther "boom", fun _ _ => "TE"⟩

/-- Claim C4 witness: decision `{"foo": 1}` produces the unknown-tool reply for
`None` without raising. -/
theorem objectDecision_neither_key_no_raise_witness :
    handleUserMessage envC4w agentInitState "m" =
      (⟨.returns (.str (unknownToolMsg .null)), [], 0⟩, agentInitState) :=
  objectDecision_neither_key_no_raise envC4w agentInitState "m" "RAW4"
    [("foo", .num 1)] rfl rfl rfl rfl

/-! ### Claim C5 -/

/-- C5: when the decision requests a tool name `T` absent from
`TOOL_FUNCTIONS`, `handle_user_message` returns the unknown-tool reply -
a non-empty string that contains `T` - performs zero tool invocations and
zero explanation calls, and does not raise. -/
theorem unknownTool_error_no_invocation (env : Env) (st : AgentState) (m raw T : String)
    (kvs : List (String × Json))
    (hchat : env.chat (decisionMessages m) 512 = some raw)
    (hparse : env.jsonLoads (pyStrip raw) = some (.obj kvs))
    (hT : kvs.lookup "tool" = some (.str T))
    (hcat : st.toolFunctions.lookup T = none) :
    handleUserMessage env st m =
      (⟨.returns (.str (unknownToolMsg (.str T))), [], 0⟩, st)
    ∧ (∃ pre post, unknownToolMsg (.str T) = pre ++ T ++ post)
    ∧ unknownToolMsg (.str T) ≠ "" := by
  have hd : askLlmForToolOrAnswer env m = .ok (.obj kvs) := by
    simp only [askLlmForToolOrAnswer, hchat, hparse]
  have htool : pyContainsStr (.obj kvs) "tool" = .ok true := by
    simp only [pyContainsStr, any_key_true_of_lookup_some hT]
  have hpath : handleToolPath env st m (.obj kvs) =
      (⟨.returns (.str (unknownToolMsg (.str T))), [], 0⟩, st) := by
    unfold handleToolPath
    simp only [pyMapGet, hT, Option.getD, hcat]
  have hmain : handleUserMessage env st m =
      (⟨.returns (.str (unknownToolMsg (.str T))), [], 0⟩, st) := by
    simp only [handleUserMessage, hd, htool]
    rcases hans : kvs.any (fun kv => kv.1 == "answer") with _ | _ <;>
      · simp only [pyContainsStr, hans, if_true, if_false, hpath]
        try rfl
  refine ⟨hmain, ⟨"I tried to call an unknown tool \x27",
    "\x27. Please refine your request.", rfl⟩, ?_⟩
  intro hemp
  have hlen := congrArg String.length hemp
  rw [show unknownToolMsg (.str T) =
      ("I tried to call an unknown tool \x27" ++ T) ++ "\x27. Please refine your request."
    from rfl] at hlen
  rw [String.length_append] at hlen
  have h2 : (0:Nat) < ("\x27. Please refine your request.").length := by decide
  have h3 : ("" : String).length = 0 := rfl
  rw [h3] at hlen
  omega

/-- Concrete run of C5: the spec scenario of the unknown tool
"osm_teleport". -/
def envC5w : Env :=
  ⟨fun _ _ => some "RAW5",
   fun s => if s == "RAW5"
     then some (.obj [("tool", .str "osm_teleport"), ("args", .obj [])]) else none,
   fun _ _ => .exnOther "boom", fun _ _ => "TE"⟩

/-- Claim C5 witness: the spec scenario of the out-of-catalog tool
"osm_teleport": an error string naming it, zero invocations. -/
theorem unknownTool_error_no_invocation_witness :
    handleUserMessage envC5w agentInitState "m" =
      (⟨.returns (.str (unknownToolMsg (.str "osm_teleport"))), [], 0⟩, agentInitState)
    ∧ (∃ pre post, unknownToolMsg (.str "osm_teleport") = pre ++ "osm_teleport" ++ post)
    ∧ unknownToolMsg (.str "osm_teleport") ≠ "" :=
  unknownTool_error_no_invocation envC5w agentInitState "m" "RAW5" "osm_teleport"
    [("tool", .str "osm_teleport"), ("args", .obj [])] rfl rfl rfl rfl

/-! ### Claim C7 -/

/-- C7: when the language-model adapter raises during the decision stage,
the exception escapes `handle_user_message`; because the `try` in `main()`
guards only `input()`, the exception then propagates out of the while
loop, so the REPL does NOT remain alive for the next turn: with a second
input pending, the run ends in `crashed` having printed nothing.  This
contradicts the claim (and the spec), which require the surrounding loop
to survive and keep prompting - the code is in error. -/
def envC7 : Env :=
  ⟨fun _ _ => none, fun _ => none, fun _ _ => .exnOther "boom", fun _ _ => "TE"⟩

/-- Claim C7: a decision-stage model failure escapes `handle_user_message` and
terminates `main()`'s loop with an input still pending, contradicting the
requirement that the loop remain alive for the next turn. -/
theorem modelFailure_crashes_repl :
    (handleUserMessage envC7 agentInitState "hi").1.outcome = .raises .modelCallError
    ∧ replRun envC7 agentInitState [some "hi", some "hello"]
        = ([], .crashed .modelCallError) :=
  ⟨rfl, rfl⟩

end AgentApp

namespace AgentApp

theorem ite_false_bool {α : Sort _} (X Y : α) : (if false = true then X else Y) = Y := rfl

theorem ite_true_bool {α : Sort _} (X Y : α) : (if true = true then X else Y) = X := rfl

/-! ### Claim C1 -/

/-- C1 amended: for a well-formed decision `{"tool": T, "args": A}` with
`T` in the catalog and `A` binding to `T`'s parameters, and whose tool
invocation returns normally, `handle_user_message` returns exactly the
output of the explanation stage (`ask_llm_to_explain_result`), and the
tool body is entered exactly once, with exactly the argument mapping `A`.
(The original claim omits the requirement that the invocation return
normally; when the tool body raises, the counterexample shows the turn
returns the tool-failure string instead of the explanation output.) -/
theorem toolSuccess_returns_explanation (env : Env) (st : AgentState)
    (m raw T : String) (A : List (String × Json)) (sig : List Param) (r : Json) (e : String)
    (hchat : env.chat (decisionMessages m) 512 = some raw)
    (hparse : env.jsonLoads (pyStrip raw)
      = some (.obj [("tool", .str T), ("args", .obj A)]))
    (hsig : st.toolFunctions.lookup T = some sig)
    (hbind : bindsOk sig A = true)
    (hrun : env.toolRun T (.obj A) = .ok r)
    (hexp : askLlmToExplainResult env m T (.obj A) r = .ok e) :
    handleUserMessage env st m =
      (⟨.returns (.str e), [(T, .obj A)], 1⟩, st) := by
  have hd : askLlmForToolOrAnswer env m
      = .ok (.obj [("tool", .str T), ("args", .obj A)]) := by
    simp only [askLlmForToolOrAnswer, hchat, hparse]
  have g1 : ∀ p q : Json,
      pyMapGet (Json.obj [("tool", p), ("args", q)]) "tool" Json.null = .ok p :=
    fun _ _ => rfl
  have g2 : ∀ p q : Json,
      pyMapGet (Json.obj [("tool", p), ("args", q)]) "args" (Json.obj []) = .ok q :=
    fun _ _ => rfl
  simp only [handleUserMessage, hd]
  rw [show pyContainsStr (Json.obj [("tool", Json.str T), ("args", Json.obj A)]) "answer"
      = .ok false from rfl]
  simp only [ite_false_bool]
  unfold handleToolPath invokeToolAndExplain
  simp only [g1, g2, ite_truthy_obj, hsig, hbind, ite_true_bool, hrun, hexp,
    eq_self_iff_true, if_true]

/-- C1 counterexample environment: the decision is well formed, the tool
is in the catalog and the arguments bind, but the tool body raises
(`RuntimeError`-style).  The model reply is the constant "RAW1", so the
explanation stage returns "RAW1" on every input - yet `handle_user_message`
returns the tool-failure string instead, refuting the claim as stated. -/
def cArgs1 : List (String × Json) :=
  [("start_lat", .num 52), ("start_lon", .num 13), ("end_lat", .num 52), ("end_lon", .num 13)]

def envC1c : Env :=
  ⟨fun _ _ => some "RAW1",
   fun s => if s == "RAW1"
     then some (.obj [("tool", .str "osrm_route_driving"), ("args", .obj cArgs1)]) else none,
   fun _ _ => .exnOther "boom", fun _ _ => "TE"⟩

/-- Claim C1 counterexample: decision well formed, tool in catalog, arguments
bind - but the tool body raises, and the turn returns the failure string, not
the explanation output (which would be "RAW1" under this constant model). -/
theorem toolFailure_breaks_claim_counterexample :
    envC1c.jsonLoads (pyStrip "RAW1")
      = some (.obj [("tool", .str "osrm_route_driving"), ("args", .obj cArgs1)])
    ∧ agentInitState.toolFunctions.lookup "osrm_route_driving" = some sig_osrm_route_driving
    ∧ bindsOk sig_osrm_route_driving cArgs1 = true
    ∧ askLlmToExplainResult envC1c "m" "osrm_route_driving" (.obj cArgs1) (.obj [])
        = .ok "RAW1"
    ∧ (handleUserMessage envC1c agentInitState "m").1
        = ⟨.returns (.str (toolFailedMsg "osrm_route_driving" "boom")),
           [("osrm_route_driving", .obj cArgs1)], 0⟩
    ∧ toolFailedMsg "osrm_route_driving" "boom" ≠ "RAW1" :=
  ⟨rfl, rfl, rfl, rfl, rfl, by decide⟩

/-- Concrete run of the amended C1: same decision, tool body succeeds,
constant model reply "RAW1" becomes the explanation output. -/
def envC1w : Env :=
  ⟨fun _ _ => some "RAW1",
   fun s => if s == "RAW1"
     then some (.obj [("tool", .str "osrm_route_driving"), ("args", .obj cArgs1)]) else none,
   fun _ _ => .ok (.obj [("distance_km", .num 30)]), fun _ _ => "TE"⟩

/-- Claim C1 witness: concrete successful `osrm_route_driving` call; the turn
returns the explanation-stage output and the body ran exactly once with `A`. -/
theorem toolSuccess_returns_explanation_witness :
    handleUserMessage envC1w agentInitState "m" =
      (⟨.returns (.str "RAW1"), [("osrm_route_driving", .obj cArgs1)], 1⟩, agentInitState) :=
  toolSuccess_returns_explanation envC1w agentInitState "m" "RAW1" "osrm_route_driving"
    cArgs1 sig_osrm_route_driving (.obj [("distance_km", .num 30)]) "RAW1"
    rfl rfl rfl (by decide) rfl rfl

/-! ### Claim C6 -/

/-- C6: for an in-catalog tool `T` whose argument dictionary `A` fails to
bind (a required parameter missing or an extra parameter supplied), the
call `tool_fn(**args)` raises `TypeError` before the body runs, the
`except TypeError` clause turns it into the user-facing string naming `T`
and including the offending arguments, and the tool body - where the
network request to the map service lives (map_servers/osrm_server.py) -
is never entered. -/
theorem invalidArgs_error_no_execution (env : Env) (st : AgentState)
    (m raw T : String) (A : List (String × Json)) (sig : List Param)
    (hchat : env.chat (decisionMessages m) 512 = some raw)
    (hparse : env.jsonLoads (pyStrip raw)
      = some (.obj [("tool", .str T), ("args", .obj A)]))
    (hsig : st.toolFunctions.lookup T = some sig)
    (hbind : bindsOk sig A = false) :
    handleUserMessage env st m =
      (⟨.returns (.str (invalidArgsMsg T (.obj A) (env.typeErrText T (.obj A)))), [], 0⟩, st)
    ∧ (∃ p1 p2 p3, invalidArgsMsg T (.obj A) (env.typeErrText T (.obj A))
        = p1 ++ T ++ p2 ++ pyRepr (.obj A) ++ p3 ++ env.typeErrText T (.obj A)) := by
  have hd : askLlmForToolOrAnswer env m
      = .ok (.obj [("tool", .str T), ("args", .obj A)]) := by
    simp only [askLlmForToolOrAnswer, hchat, hparse]
  have g1 : ∀ p q : Json,
      pyMapGet (Json.obj [("tool", p), ("args", q)]) "tool" Json.null = .ok p :=
    fun _ _ => rfl
  have g2 : ∀ p q : Json,
      pyMapGet (Json.obj [("tool", p), ("args", q)]) "args" (Json.obj []) = .ok q :=
    fun _ _ => rfl
  constructor
  · simp only [handleUserMessage, hd]
    rw [show pyContainsStr (Json.obj [("tool", Json.str T), ("args", Json.obj A)]) "answer"
        = .ok false from rfl]
    simp only [ite_false_bool]
    unfold handleToolPath invokeToolAndExplain
    simp only [g1, g2, ite_truthy_obj, hsig, hbind, ite_false_bool]
  · exact ⟨"There was an error calling tool \x27", "\x27 with arguments ", ": ", rfl⟩

/-- Concrete run of C6: `osrm_route_driving` with only `start_lat`
supplied; binding fails, the formatted error is returned and the tool
body is never entered (zero tool calls). -/
def cArgs6 : List (String × Json) := [("start_lat", .num 52)]

def envC6w : Env :=
  ⟨fun _ _ => some "RAW6",
   fun s => if s == "RAW6"
     then some (.obj [("tool", .str "osrm_route_driving"), ("args", .obj cArgs6)]) else none,
   fun _ _ => .exnOther "boom", fun _ _ => "missing 3 required positional arguments"⟩

/-- Claim C6 witness: `osrm_route_driving` with only `start_lat`; binding fails,
the error string is returned, the body (and its network call) never runs. -/
theorem invalidArgs_error_no_execution_witness :
    handleUserMessage envC6w agentInitState "m" =
      (⟨.returns (.str (invalidArgsMsg "osrm_route_driving" (.obj cArgs6)
          (envC6w.typeErrText "osrm_route_driving" (.obj cArgs6)))), [], 0⟩, agentInitState)
    ∧ (∃ p1 p2 p3, invalidArgsMsg "osrm_route_driving" (.obj cArgs6)
          (envC6w.typeErrText "osrm_route_driving" (.obj cArgs6))
        = p1 ++ "osrm_route_driving" ++ p2 ++ pyRepr (.obj cArgs6) ++ p3
            ++ envC6w.typeErrText "osrm_route_driving" (.obj cArgs6)) :=
  invalidArgs_error_no_execution envC6w agentInitState "m" "RAW6" "osrm_route_driving"
    cArgs6 sig_osrm_route_driving rfl rfl rfl (by decide)

/-! ### Claim C10 -/

/-- Looking up a key different from the removed one is unaffected by
removing every binding of the removed key. -/
theorem lookup_filter_ne {kvs : List (String × Json)} {k r : String} (hk : k ≠ r) :
    (kvs.filter (fun kv => !(kv.1 == r))).lookup k = kvs.lookup k := by
  induction kvs with
  | nil => rfl
  | cons kv rest ih =>
      obtain ⟨k1, v1⟩ := kv
      rw [List.filter_cons]
      by_cases h1 : k1 = r
      · have hb : (k1 == r) = true := beq_iff_eq.mpr h1
        simp only [hb, Bool.not_true, ite_false_bool, if_false]
        rw [ih, List.lookup]
        have hq : (k == k1) = false :=
          beq_eq_false_iff_ne.mpr (fun hc => hk (hc.trans h1))
        simp only [hq]
      · have hb : (k1 == r) = false := beq_eq_false_iff_ne.mpr h1
        simp only [hb, Bool.not_false, ite_true_bool, if_true]
        rw [List.lookup, List.lookup]
        rcases hq : (k == k1) with _ | _
        · simp only [hq]
          exact ih
        · simp only [hq]

/-- After removing every binding of a key, no key of the list equals it. -/
theorem any_key_filter_self (kvs : List (String × Json)) (r : String) :
    (kvs.filter (fun kv => !(kv.1 == r))).any (fun kv => kv.1 == r) = false := by
  induction kvs with
  | nil => rfl
  | cons kv rest ih =>
      obtain ⟨k1, v1⟩ := kv
      rw [List.filter_cons]
      by_cases h1 : k1 = r
      · have hb : (k1 == r) = true := beq_iff_eq.mpr h1
        simp only [hb, Bool.not_true, ite_false_bool, if_false]
        exact ih
      · have hb : (k1 == r) = false := beq_eq_false_iff_ne.mpr h1
        simp only [hb, Bool.not_false, ite_true_bool, if_true,
          List.any_cons, Bool.false_or]
        exact ih

/-- C10: whenever the parsed decision object contains both an `"answer"`
binding and a `"tool"` binding - anywhere in the object, in any key
order - `handle_user_message` takes the tool path and the answer value
is discarded: the run is identical (same returned value, same tool
invocations, same state) to a run whose decision is the same object with
every `"answer"` entry removed.  The direct-answer branch is entered
only when `"answer"` is present and `"tool"` is absent. -/
theorem toolKey_overrides_answer (env : Env) (g : String → Option Json)
    (st : AgentState) (m raw : String) (a tv : Json) (kvs : List (String × Json))
    (hchat : env.chat (decisionMessages m) 512 = some raw)
    (hparse : env.jsonLoads (pyStrip raw) = some (.obj kvs))
    (hA : kvs.lookup "answer" = some a)
    (hT : kvs.lookup "tool" = some tv)
    (hparse2 : g (pyStrip raw)
      = some (.obj (kvs.filter (fun kv => !(kv.1 == "answer"))))) :
    handleUserMessage env st m = handleUserMessage { env with jsonLoads := g } st m := by
  have hc : ({ env with jsonLoads := g } : Env).chat = env.chat := rfl
  have hd1 : askLlmForToolOrAnswer env m = .ok (.obj kvs) := by
    simp only [askLlmForToolOrAnswer, hchat, hparse]
  have hd2 : askLlmForToolOrAnswer { env with jsonLoads := g } m
      = .ok (.obj (kvs.filter (fun kv => !(kv.1 == "answer")))) := by
    simp only [askLlmForToolOrAnswer, hc, hchat, hparse2]
  have hansT : pyContainsStr (.obj kvs) "answer" = .ok true := by
    simp only [pyContainsStr, any_key_true_of_lookup_some hA]
  have htoolT : pyContainsStr (.obj kvs) "tool" = .ok true := by
    simp only [pyContainsStr, any_key_true_of_lookup_some hT]
  have e1 : handleUserMessage env st m = handleToolPath env st m (.obj kvs) := by
    simp only [handleUserMessage, hd1, hansT, htoolT, ite_true_bool, if_true]
  have hansF : pyContainsStr
      (.obj (kvs.filter (fun kv => !(kv.1 == "answer")))) "answer" = .ok false := by
    simp only [pyContainsStr, any_key_filter_self]
  have e2 : handleUserMessage { env with jsonLoads := g } st m
      = handleToolPath { env with jsonLoads := g } st m
          (.obj (kvs.filter (fun kv => !(kv.1 == "answer")))) := by
    simp only [handleUserMessage, hd2, hansF, ite_false_bool, if_false]
  have l1 : (kvs.filter (fun kv => !(kv.1 == "answer"))).lookup "tool"
      = kvs.lookup "tool" := lookup_filter_ne (by decide)
  have l2 : (kvs.filter (fun kv => !(kv.1 == "answer"))).lookup "args"
      = kvs.lookup "args" := lookup_filter_ne (by decide)
  have e3 : handleToolPath env st m (.obj kvs)
      = handleToolPath { env with jsonLoads := g } st m
          (.obj (kvs.filter (fun kv => !(kv.1 == "answer")))) := by
    unfold handleToolPath
    simp only [pyMapGet, l1, l2]
    rfl
  rw [e1, e2, e3]

/-- Concrete run of C10, with the `"answer"` key last: the decision
`{"tool": "osm_teleport", "args": {}, "answer": "A"}` behaves exactly
like `{"tool": "osm_teleport", "args": {}}` - the answer text "A" is
never returned. -/
def envC10w : Env :=
  ⟨fun _ _ => some "RAW10",
   fun s => if s == "RAW10"
     then some (.obj [("tool", .str "osm_teleport"), ("args", .obj []),
       ("answer", .str "A")]) else none,
   fun _ _ => .exnOther "boom", fun _ _ => "TE"⟩

def g10w : String → Option Json :=
  fun s => if s == "RAW10"
    then some (.obj [("tool", .str "osm_teleport"), ("args", .obj [])]) else none

/-- Claim C10 witness: `{"tool": "osm_teleport", "args": {}, "answer": "A"}`
behaves exactly like the same object with the answer entry removed; the
answer text is discarded. -/
theorem toolKey_overrides_answer_witness :
    handleUserMessage envC10w agentInitState "m"
      = handleUserMessage { envC10w with jsonLoads := g10w } agentInitState "m" :=
  toolKey_overrides_answer envC10w g10w agentInitState "m" "RAW10"
    (.str "A") (.str "osm_teleport")
    [("tool", .str "osm_teleport"), ("args", .obj []), ("answer", .str "A")]
    rfl rfl rfl rfl rfl

end AgentApp
